import Mathlib

/-!
Shallow embedding of the ring-road IDM traffic simulation implemented by the
class `TrafficSimulation` in `src/Proyecto/simulacionPoo.py` (with the
near-duplicate `src/ScriptFinal.py` differing only in parameter values).

Python floats are modelled by exact rationals (`ℚ`).  `math.sqrt` is modelled
by `Rat.sqrt`; at every call the program performs with its built-in parameters
the argument is `A_MAX * B_DECEL = 1 * 4 = 4`, a perfect square, where
`Rat.sqrt` agrees exactly with the float computation.  The Python float `%`
operator (used on non-negative dividends with positive divisors) is modelled
by `fmod x y = x - y * ⌊x / y⌋`.

The mutable `numpy` arrays `self.s` and `self.v` are modelled as lists of
rationals; `self.run_step` becomes a pure state-transition function, one call
per simulated step.
-/

namespace TrafficSimulation

/-- The parameters set once in `TrafficSimulation.__init__` (both source files
hard-code one fixed assignment each; see `defaultParams` and `scriptParams`). -/
structure Params where
  N : ℕ
  CIRC : ℚ
  DT : ℚ
  SIM_TIME : ℚ
  L_VEHICLE : ℚ
  S0 : ℚ
  V0 : ℚ
  A_MAX : ℚ
  B_DECEL : ℚ
  T_HEADWAY : ℚ
  STOP_DURATION : ℚ
  FIRST_STOP : ℚ
  REPEAT_INTERVAL : ℚ
deriving Repr

/-- The parameter values hard-coded in `src/Proyecto/simulacionPoo.py`. -/
def defaultParams : Params where
  N := 22
  CIRC := 230
  DT := 0.05
  SIM_TIME := 1200
  L_VEHICLE := 4
  S0 := 2
  V0 := 10
  A_MAX := 1
  B_DECEL := 4
  T_HEADWAY := 1.6
  STOP_DURATION := 2
  FIRST_STOP := 2
  REPEAT_INTERVAL := 10

/-- The parameter values hard-coded in `src/ScriptFinal.py`. -/
def scriptParams : Params where
  N := 20
  CIRC := 230
  DT := 0.05
  SIM_TIME := 1200
  L_VEHICLE := 4
  S0 := 2
  V0 := 15
  A_MAX := 0.8
  B_DECEL := 4
  T_HEADWAY := 1.6
  STOP_DURATION := 6
  FIRST_STOP := 2
  REPEAT_INTERVAL := 15

/-- The dynamic state: `self.s` (positions) and `self.v` (velocities). -/
structure SimState where
  s : List ℚ
  v : List ℚ
deriving Repr

/-- Python float `%`: `fmod x y = x - y * ⌊x / y⌋`.  For `y > 0` this lands in
`[0, y)`, exactly like Python's `%` on floats. -/
def fmod (x y : ℚ) : ℚ := x - y * ⌊x / y⌋

/-- Index of the vehicle ahead: `leader_idx = (i - 1 + self.N) % self.N`
(computed in ℤ as Python does, then brought back to ℕ; for `0 ≤ i < N` the
result of the Python expression is non-negative). -/
def leader_idx (N i : ℕ) : ℕ := (((i : ℤ) - 1 + (N : ℤ)) % (N : ℤ)).toNat

/-- `TrafficSimulation.get_gap`: free distance from vehicle `i` to its leader,
with ring wraparound. -/
def get_gap (p : Params) (i : ℕ) (s_curr : List ℚ) : ℚ :=
  let dist := s_curr.getD (leader_idx p.N i) 0 - s_curr.getD i 0
  (if dist < 0 then dist + p.CIRC else dist) - p.L_VEHICLE

/-- `TrafficSimulation.idm_accel`: the Intelligent Driver Model acceleration. -/
def idm_accel (p : Params) (v_curr v_leader gap : ℚ) : ℚ :=
  let delta_v := v_curr - v_leader
  let s_star := p.S0 +
    max 0 (v_curr * p.T_HEADWAY + (v_curr * delta_v) / (2 * Rat.sqrt (p.A_MAX * p.B_DECEL)))
  let effective_gap := max 0.01 gap
  p.A_MAX * (1 - (v_curr / p.V0) ^ 4 - (s_star / effective_gap) ^ 2)

/-- `TrafficSimulation.leader_stopped`: the scripted braking schedule of
vehicle 0. -/
def leader_stopped (p : Params) (t : ℚ) : Bool :=
  let time_since_start := t - p.FIRST_STOP
  if 0 ≤ time_since_start then
    decide (fmod time_since_start p.REPEAT_INTERVAL < p.STOP_DURATION)
  else
    false

/-- Phase 1 of `run_step` writes `v_new[0] = 0.0` when the leader is scripted
to stop and its current velocity is not `> 0`; otherwise `v_new[i]` still holds
the copied pre-step velocity when phase 2 begins. -/
def v_phase1 (stopped : Bool) (v0 : ℚ) : ℚ :=
  if stopped = true ∧ ¬ 0 < v0 then 0 else v0

/-- The acceleration `accel[i]` computed by phase 1 of
`TrafficSimulation.run_step` from the pre-step state. -/
def accel (p : Params) (st : SimState) (stopped : Bool) (i : ℕ) : ℚ :=
  if i = 0 then
    if stopped = true then
      if 0 < st.v.getD 0 0 then -10 else 0
    else
      p.A_MAX * (1 - (st.v.getD 0 0 / p.V0) ^ 4)
  else
    idm_accel p (st.v.getD i 0) (st.v.getD (leader_idx p.N i) 0) (get_gap p i st.s)

/-- Phase 2 of `TrafficSimulation.run_step` for one vehicle: returns the pair
`(v_new[i], s_new[i])`.  The first branch is the `continue` that skips the
pinned leader; the inner `if` is the anti-collision safeguard (applied only
for `i ≠ 0`, against the pre-step gap). -/
def step_vehicle (p : Params) (st : SimState) (stopped : Bool) (i : ℕ) : ℚ × ℚ :=
  if i = 0 ∧ stopped = true ∧ v_phase1 stopped (st.v.getD 0 0) = 0 then
    (v_phase1 stopped (st.v.getD 0 0), st.s.getD 0 0)
  else
    let vn := max 0 (st.v.getD i 0 + accel p st stopped i * p.DT)
    let sn := fmod (st.s.getD i 0 + vn * p.DT) p.CIRC
    if i ≠ 0 ∧ get_gap p i st.s - 0.5 < vn * p.DT then
      let vc := max 0 ((get_gap p i st.s - 0.5) / p.DT)
      (vc, fmod (st.s.getD i 0 + vc * p.DT) p.CIRC)
    else
      (vn, sn)

/-- `TrafficSimulation.run_step`: one full simulation step at time `t`.  All
accelerations and the safeguard read the one pre-step snapshot, and every
vehicle's new entries depend only on that snapshot, so the two Python loops
amount to a per-index map. -/
def run_step (p : Params) (t : ℚ) (st : SimState) : SimState where
  s := (List.range p.N).map fun i => (step_vehicle p st (leader_stopped p t) i).2
  v := (List.range p.N).map fun i => (step_vehicle p st (leader_stopped p t) i).1

/-- The initial state built in `__init__`:
`np.linspace(0, CIRC, N, endpoint=False)` gives positions `i * CIRC / N`, and
all velocities start at `V0`. -/
def init_state (p : Params) : SimState where
  s := (List.range p.N).map fun i : ℕ => (i : ℚ) * p.CIRC / (p.N : ℚ)
  v := (List.range p.N).map fun _ : ℕ => p.V0

/-- States reachable from the constructed initial state by repeated calls to
`run_step` (with arbitrary time arguments, as the caller controls `t`). -/
inductive Reachable (p : Params) : SimState → Prop
  | init : Reachable p (init_state p)
  | step (t : ℚ) (st : SimState) : Reachable p st → Reachable p (run_step p t st)

/-- The phase-2 update of a follower (`i ≠ 0`): IDM acceleration, Euler
integration, then the anti-collision safeguard against the pre-step gap.
For `i ≠ 0`, `step_vehicle` always reduces to this, whatever the leader's
scripted state is. -/
def follower_update (p : Params) (st : SimState) (i : ℕ) : ℚ × ℚ :=
  let a := idm_accel p (st.v.getD i 0) (st.v.getD (leader_idx p.N i) 0) (get_gap p i st.s)
  let vn := max 0 (st.v.getD i 0 + a * p.DT)
  let sn := fmod (st.s.getD i 0 + vn * p.DT) p.CIRC
  if get_gap p i st.s - 0.5 < vn * p.DT then
    let vc := max 0 ((get_gap p i st.s - 0.5) / p.DT)
    (vc, fmod (st.s.getD i 0 + vc * p.DT) p.CIRC)
  else
    (vn, sn)

/-- The trace of states produced by driving `run_step` with a given list of
time arguments, recording the state after each call. -/
def run_trace (p : Params) : SimState → List ℚ → List SimState
  | _, [] => []
  | st, t :: ts => run_step p t st :: run_trace p (run_step p t st) ts

/-- The whole effect of `TrafficSimulation.__init__` in
`src/Proyecto/simulacionPoo.py`: it takes no arguments, contains no parameter
validation and no `raise` statement of any kind, and unconditionally produces
the fixed parameter record together with the initial state arrays. -/
def mk_sim : Params × SimState := (defaultParams, init_state defaultParams)

/-- The engine with the degenerate ring `N = 1` (spec Scenario B): all other
parameters as in `simulacionPoo.py`. -/
def oneVehicleParams : Params := { defaultParams with N := 1 }

/-- A 22-vehicle state satisfying every documented state invariant
(positions normalized, velocities non-negative, all gaps non-negative):
vehicle 0 is stopped at position 100 while vehicle 21 — vehicle 0's scripted
"leader", physically just behind it at 99.8 — approaches at full speed.  It
reproduces, in a single step, exactly the geometry the real run reaches at
`t ≈ 3.5` (vehicle 21 driving through the stopped vehicle 0). -/
def crashState : SimState where
  s := [100, 105, 110, 115, 120, 125, 130, 135, 140, 145, 150,
        155, 160, 165, 170, 175, 180, 185, 190, 195, 200, 99.8]
  v := [0, 0, 0, 0, 0, 0, 0, 0, 0, 0, 0, 0, 0, 0, 0, 0, 0, 0, 0, 0, 0, 10]

/-- Example state for witnesses: two vehicles, arbitrary data. -/
def exA : SimState where
  s := [5, 80]
  v := [3, 7]

/-- Second example state: agrees with `exA` at index 0 only. -/
def exB : SimState where
  s := [5, 1]
  v := [3, 9]

/-- Example state with the leader at velocity `0`. -/
def exC : SimState where
  s := [12, 30]
  v := [0, 6]

/-! ### Basic lemmas about the embedding -/

theorem getD_range_map (f : ℕ → ℚ) {n i : ℕ} (h : i < n) :
    ((List.range n).map f).getD i 0 = f i := by
  rw [List.getD_eq_getElem?_getD, List.getElem?_map, List.getElem?_range h]
  rfl

theorem leader_idx_eq {N : ℕ} (hN : 0 < N) (i : ℕ) :
    leader_idx N i = (i + (N - 1)) % N := by
  rw [leader_idx]
  have h1 : ((i : ℤ) - 1 + (N : ℤ)) = ((i + (N - 1) : ℕ) : ℤ) := by
    push_cast [Nat.cast_sub (Nat.one_le_iff_ne_zero.mpr hN.ne')]
    ring
  rw [h1, ← Int.natCast_mod]
  exact Int.toNat_ofNat _

theorem run_step_v_getD (p : Params) (t : ℚ) (st : SimState) {i : ℕ} (h : i < p.N) :
    (run_step p t st).v.getD i 0 = (step_vehicle p st (leader_stopped p t) i).1 :=
  getD_range_map _ h

theorem run_step_s_getD (p : Params) (t : ℚ) (st : SimState) {i : ℕ} (h : i < p.N) :
    (run_step p t st).s.getD i 0 = (step_vehicle p st (leader_stopped p t) i).2 :=
  getD_range_map _ h

theorem fmod_nonneg {y : ℚ} (hy : 0 < y) (x : ℚ) : 0 ≤ fmod x y := by
  have h1 : (⌊x / y⌋ : ℚ) ≤ x / y := Int.floor_le _
  have h2 : y * (⌊x / y⌋ : ℚ) ≤ y * (x / y) := by
    exact mul_le_mul_of_nonneg_left h1 hy.le
  rw [mul_div_cancel₀ x hy.ne'] at h2
  simpa [fmod] using h2

theorem fmod_lt {y : ℚ} (hy : 0 < y) (x : ℚ) : fmod x y < y := by
  have h1 : x / y < (⌊x / y⌋ : ℚ) + 1 := Int.lt_floor_add_one _
  have h2 : y * (x / y) < y * ((⌊x / y⌋ : ℚ) + 1) := by
    exact mul_lt_mul_of_pos_left h1 hy
  rw [mul_div_cancel₀ x hy.ne'] at h2
  rw [fmod]
  nlinarith [h2]

theorem step_vehicle_follower (p : Params) (st : SimState) (stopped : Bool) {i : ℕ}
    (h : i ≠ 0) : step_vehicle p st stopped i = follower_update p st i := by
  rw [step_vehicle, follower_update, accel]
  rw [if_neg (by simp [h]), if_neg h]
  by_cases hc : get_gap p i st.s - 0.5 <
      max 0 (st.v.getD i 0 +
        idm_accel p (st.v.getD i 0) (st.v.getD (leader_idx p.N i) 0) (get_gap p i st.s) * p.DT)
        * p.DT
  · rw [if_pos ⟨h, hc⟩, if_pos hc]
  · rw [if_neg fun hk => hc hk.2, if_neg hc]

/-- Core arithmetic fact about the anti-collision clamp of phase 2: for any
non-negative candidate velocity `w`, the clamped velocity moves the vehicle at
most `g - 0.5` when `g ≥ 0.5`, and is `0` when `g < 0.5`. -/
theorem safeguard_core (DT g w : ℚ) (hDT : 0 < DT) (hw : 0 ≤ w) :
    (0.5 ≤ g → (if g - 0.5 < w * DT then max 0 ((g - 0.5) / DT) else w) * DT ≤ g - 0.5) ∧
    (g < 0.5 → (if g - 0.5 < w * DT then max 0 ((g - 0.5) / DT) else w) = 0) := by
  constructor
  · intro hg
    split_ifs with hc
    · have h5 : 0 ≤ (g - 0.5) / DT := div_nonneg (by linarith) hDT.le
      rw [max_eq_right h5, div_mul_cancel₀ _ hDT.ne']
    · exact not_lt.mp hc
  · intro hg
    have hwDT : 0 ≤ w * DT := mul_nonneg hw hDT.le
    split_ifs with hc
    · have hneg : (g - 0.5) / DT < 0 := div_neg_of_neg_of_pos (by linarith) hDT
      exact max_eq_left hneg.le
    · exact absurd (not_lt.mp hc) (by linarith)

theorem follower_update_fst (p : Params) (st : SimState) (i : ℕ) :
    (follower_update p st i).1 =
      (if get_gap p i st.s - 0.5 <
          max 0 (st.v.getD i 0 +
            idm_accel p (st.v.getD i 0) (st.v.getD (leader_idx p.N i) 0) (get_gap p i st.s)
              * p.DT) * p.DT
        then max 0 ((get_gap p i st.s - 0.5) / p.DT)
        else max 0 (st.v.getD i 0 +
          idm_accel p (st.v.getD i 0) (st.v.getD (leader_idx p.N i) 0) (get_gap p i st.s)
            * p.DT)) := by
  rw [follower_update]
  split_ifs <;> rfl

/-! ### Claim theorems -/

/-- C1: for every follower `i ≠ 0` and every call to `run_step`, if the
pre-step gap `g` satisfies `g ≥ 0.5` then the follower's displacement in this
step (its new velocity times the time step) is at most `g - 0.5`; if
`g < 0.5` its post-step velocity is exactly `0`. -/
theorem c1_follower_safeguard (p : Params) (st : SimState) (t : ℚ) (i : ℕ)
    (hDT : 0 < p.DT) (hi0 : i ≠ 0) (hiN : i < p.N) :
    (0.5 ≤ get_gap p i st.s →
      (run_step p t st).v.getD i 0 * p.DT ≤ get_gap p i st.s - 0.5) ∧
    (get_gap p i st.s < 0.5 → (run_step p t st).v.getD i 0 = 0) := by
  rw [run_step_v_getD p t st hiN, step_vehicle_follower p st _ hi0, follower_update_fst]
  exact safeguard_core p.DT (get_gap p i st.s)
    (max 0 (st.v.getD i 0 +
      idm_accel p (st.v.getD i 0) (st.v.getD (leader_idx p.N i) 0) (get_gap p i st.s) * p.DT))
    hDT (le_max_left _ _)

/-- C4: after every call to `run_step`, every vehicle's velocity is
non-negative: the pinned leader keeps velocity `0`, and every other update is
floored at `0` by `max`. -/
theorem c4_velocity_nonneg (p : Params) (t : ℚ) (st : SimState) (i : ℕ)
    (h : i < p.N) : 0 ≤ (run_step p t st).v.getD i 0 := by
  rw [run_step_v_getD p t st h]
  simp only [step_vehicle]
  split_ifs with h1 h2
  · exact le_of_eq h1.2.2.symm
  · exact le_max_left 0 _
  · exact le_max_left 0 _

/-- C5: the leader schedule returns `false` for every `t < FIRST_STOP`, and
for `t ≥ FIRST_STOP` it returns `true` iff
`(t - FIRST_STOP) mod REPEAT_INTERVAL < STOP_DURATION`. -/
theorem c5_leader_schedule (p : Params) (t : ℚ) :
    (t < p.FIRST_STOP → leader_stopped p t = false) ∧
    (p.FIRST_STOP ≤ t →
      (leader_stopped p t = true ↔
        fmod (t - p.FIRST_STOP) p.REPEAT_INTERVAL < p.STOP_DURATION)) := by
  constructor
  · intro h
    simp only [leader_stopped]
    rw [if_neg (not_le.mpr (sub_neg.mpr h))]
  · intro h
    simp only [leader_stopped]
    rw [if_pos (sub_nonneg.mpr h)]
    exact decide_eq_true_iff

/-- C6: the step operation is deterministic — two engines with identical
parameters and identical state, driven by the identical sequence of step
calls, produce identical state sequences. -/
theorem c6_determinism (pa pb : Params) (sta stb : SimState) (tsa tsb : List ℚ)
    (hp : pa = pb) (hst : sta = stb) (hts : tsa = tsb) :
    run_trace pa sta tsa = run_trace pb stb tsb := by
  subst hp
  subst hst
  subst hts
  rfl

/-- C8: if the leader is scripted to stop at `t` and its pre-step velocity is
`0`, then after `run_step` its velocity is exactly `0` and its position is
unchanged (phase 2 skips it), while every other vehicle's state is updated by
the ordinary follower rule. -/
theorem c8_pinned_leader (p : Params) (st : SimState) (t : ℚ)
    (hstop : leader_stopped p t = true) (hv0 : st.v.getD 0 0 = 0) (hN : 0 < p.N) :
    (run_step p t st).v.getD 0 0 = 0 ∧
    (run_step p t st).s.getD 0 0 = st.s.getD 0 0 ∧
    ∀ i, i < p.N → i ≠ 0 →
      (run_step p t st).v.getD i 0 = (follower_update p st i).1 ∧
      (run_step p t st).s.getD i 0 = (follower_update p st i).2 := by
  have hpin : v_phase1 (leader_stopped p t) (st.v.getD 0 0) = 0 := by
    rw [v_phase1, hv0]
    rw [if_pos ⟨hstop, lt_irrefl 0⟩]
  have hskip : step_vehicle p st (leader_stopped p t) 0 =
      (v_phase1 (leader_stopped p t) (st.v.getD 0 0), st.s.getD 0 0) := by
    rw [step_vehicle, if_pos ⟨rfl, hstop, hpin⟩]
  refine ⟨?_, ?_, ?_⟩
  · rw [run_step_v_getD p t st hN, hskip]
    exact hpin
  · rw [run_step_s_getD p t st hN, hskip]
  · intro i hi hi0
    rw [run_step_v_getD p t st hi, run_step_s_getD p t st hi,
      step_vehicle_follower p st _ hi0]
    exact ⟨rfl, rfl⟩

theorem step_vehicle_zero_ext (p : Params) (stopped : Bool) (sta stb : SimState)
    (hs : sta.s.getD 0 0 = stb.s.getD 0 0) (hv : sta.v.getD 0 0 = stb.v.getD 0 0) :
    step_vehicle p sta stopped 0 = step_vehicle p stb stopped 0 := by
  simp only [step_vehicle, accel, v_phase1, hs, hv]
  simp

/-- C10: vehicle 0's post-step position and velocity depend only on its own
pre-step position, its own pre-step velocity and `t`: two pre-step states that
agree at index 0 produce the same post-step index-0 entries, whatever the
other vehicles do — the safeguard is never applied to vehicle 0. -/
theorem c10_leader_independent (p : Params) (t : ℚ) (sta stb : SimState)
    (hs : sta.s.getD 0 0 = stb.s.getD 0 0) (hv : sta.v.getD 0 0 = stb.v.getD 0 0) :
    (run_step p t sta).v.getD 0 0 = (run_step p t stb).v.getD 0 0 ∧
    (run_step p t sta).s.getD 0 0 = (run_step p t stb).s.getD 0 0 := by
  rcases Nat.eq_zero_or_pos p.N with hN | hN
  · simp [run_step, hN]
  · have h := step_vehicle_zero_ext p (leader_stopped p t) sta stb hs hv
    rw [run_step_v_getD p t sta hN, run_step_v_getD p t stb hN,
      run_step_s_getD p t sta hN, run_step_s_getD p t stb hN, h]
    exact ⟨rfl, rfl⟩

/-- C3: along every run from the constructed initial state, every vehicle's
position stays in `[0, CIRC)` after every step: non-skipped updates are
normalized by the modulo, and the pinned leader keeps its (already
normalized) position. -/
theorem c3_position_domain (p : Params) (st : SimState) (hC : 0 < p.CIRC)
    (hR : Reachable p st) :
    ∀ i, i < p.N → 0 ≤ st.s.getD i 0 ∧ st.s.getD i 0 < p.CIRC := by
  induction hR with
  | init =>
      intro i hi
      have hN : (0 : ℚ) < (p.N : ℚ) := by
        exact_mod_cast lt_of_le_of_lt (Nat.zero_le i) hi
      have hiq : (i : ℚ) < (p.N : ℚ) := by exact_mod_cast hi
      rw [init_state]
      rw [getD_range_map _ hi]
      constructor
      · exact div_nonneg (mul_nonneg (Nat.cast_nonneg i) hC.le) (Nat.cast_nonneg p.N)
      · rw [div_lt_iff₀ hN]
        nlinarith
  | step t st' hR' ih =>
      intro i hi
      rw [run_step_s_getD p t st' hi]
      simp only [step_vehicle]
      split_ifs with h1 h2
      · exact ih 0 (lt_of_le_of_lt (Nat.zero_le i) hi)
      · exact ⟨fmod_nonneg hC _, fmod_lt hC _⟩
      · exact ⟨fmod_nonneg hC _, fmod_lt hC _⟩

theorem rat_sqrt_four : Rat.sqrt 4 = 2 := by
  rw [show (4 : ℚ) = 2 * 2 by norm_num, Rat.sqrt_eq]
  norm_num

theorem fmod_eq_self {x y : ℚ} (hx : 0 ≤ x) (hxy : x < y) : fmod x y = x := by
  have hy : 0 < y := lt_of_le_of_lt hx hxy
  have hfl : ⌊x / y⌋ = 0 := by
    rw [Int.floor_eq_zero_iff, Set.mem_Ico]
    exact ⟨div_nonneg hx hy.le, by rw [div_lt_one hy]; exact hxy⟩
  simp [fmod, hfl]

theorem gap_single (l : List ℚ) :
    get_gap oneVehicleParams 0 l = -oneVehicleParams.L_VEHICLE := by
  have hl : leader_idx oneVehicleParams.N 0 = 0 := by decide
  simp only [get_gap, hl, sub_self]
  rw [if_neg (lt_irrefl 0), zero_sub]

/-- C7 counterexample: with `N = 1` the single vehicle is its own leader and
`get_gap` returns `0 - L_VEHICLE = -4`, not `CIRC - L_VEHICLE = 226` as the
claim states: the wraparound branch is not taken because the distance `0` is
not `< 0`. -/
theorem c7_counterexample :
    get_gap oneVehicleParams 0 (init_state oneVehicleParams).s = -4 ∧
    oneVehicleParams.CIRC - oneVehicleParams.L_VEHICLE = 226 ∧
    (-4 : ℚ) ≠ 226 := by
  refine ⟨?_, by norm_num [oneVehicleParams, defaultParams], by norm_num⟩
  rw [gap_single]
  norm_num [oneVehicleParams, defaultParams]

/-- C7 (amended): with `N = 1` the gap of the single vehicle is the constant
`-L_VEHICLE` in every state (not `CIRC - L_VEHICLE`), and the step operation
performs no division by zero: the IDM divisor `max 0.01 gap` is the non-zero
`0.01`, and `V0`, `DT` and `2 * sqrt(A_MAX * B_DECEL)` are all non-zero.
(Termination is structural: `run_step` is a total function.) -/
theorem c7_degenerate_ring (l : List ℚ) :
    get_gap oneVehicleParams 0 l = -oneVehicleParams.L_VEHICLE ∧
    max 0.01 (get_gap oneVehicleParams 0 l) ≠ 0 ∧
    oneVehicleParams.V0 ≠ 0 ∧ oneVehicleParams.DT ≠ 0 ∧
    2 * Rat.sqrt (oneVehicleParams.A_MAX * oneVehicleParams.B_DECEL) ≠ 0 := by
  refine ⟨gap_single l, ?_, ?_, ?_, ?_⟩
  · rw [gap_single]
    norm_num [oneVehicleParams, defaultParams, max_def]
  · norm_num [oneVehicleParams, defaultParams]
  · norm_num [oneVehicleParams, defaultParams]
  · norm_num [oneVehicleParams, defaultParams, rat_sqrt_four]

/-- C9: construction cannot reject anything.  `__init__` accepts no parameter
set at all, performs no validation, and contains no raise path; it always
succeeds, producing the one fixed parameter record (which happens to satisfy
every validity condition the spec lists) and the initial state.  No
ConfigurationError (or any other construction-time error) exists in the
code. -/
theorem c9_construction_never_fails :
    mk_sim = (defaultParams, init_state defaultParams) ∧
    1 ≤ mk_sim.1.N ∧ 0 < mk_sim.1.CIRC ∧ 0 < mk_sim.1.DT ∧
    0 < mk_sim.1.REPEAT_INTERVAL ∧ 0 ≤ mk_sim.1.L_VEHICLE ∧ 0 ≤ mk_sim.1.S0 ∧
    0 < mk_sim.1.V0 ∧ 0 < mk_sim.1.A_MAX ∧ 0 < mk_sim.1.B_DECEL ∧
    0 < mk_sim.1.T_HEADWAY ∧ 0 ≤ mk_sim.1.STOP_DURATION ∧ 0 ≤ mk_sim.1.FIRST_STOP := by
  refine ⟨rfl, ?_, ?_, ?_, ?_, ?_, ?_, ?_, ?_, ?_, ?_, ?_, ?_⟩ <;>
    norm_num [mk_sim, defaultParams]

/-- C2 demonstration: `crashState` satisfies every documented state invariant
(normalized positions, non-negative velocities, all 22 gaps non-negative),
yet one `run_step` call — at `t = 2`, when the scripted leader is pinned at
velocity 0 — leaves vehicle 0 with a negative forward gap: vehicle 21 drives
through the stopped vehicle 0, because the anti-collision safeguard clamps
vehicle 21 only against the pre-step position of vehicle 20, and no rule at
all protects the pair (21, 0).  This is the mechanism by which the code's own
default run violates the claimed invariant at `t ≈ 3.5`. -/
theorem c2_leader_gap_negative :
    (∀ i, i < defaultParams.N →
        0 ≤ crashState.s.getD i 0 ∧ crashState.s.getD i 0 < defaultParams.CIRC ∧
        0 ≤ crashState.v.getD i 0 ∧ 0 ≤ get_gap defaultParams i crashState.s) ∧
    get_gap defaultParams 0 (run_step defaultParams 2 crashState).s < 0 := by
  constructor
  · intro i hi
    have h22 : i < 22 := hi
    interval_cases i <;>
      norm_num [crashState, get_gap, leader_idx_eq, defaultParams,
        List.getD_cons_zero, List.getD_cons_succ]
  · have hstop : leader_stopped defaultParams 2 = true := by
      norm_num [leader_stopped, fmod, defaultParams]
    have h21N : (21 : ℕ) < defaultParams.N := by decide
    have h0N : (0 : ℕ) < defaultParams.N := by decide
    have hl0 : leader_idx defaultParams.N 0 = 21 := by decide
    have e0 : (run_step defaultParams 2 crashState).s.getD 0 0 = 100 := by
      rw [run_step_s_getD defaultParams 2 crashState h0N, hstop]
      norm_num [step_vehicle, v_phase1, crashState]
    have e21 : (run_step defaultParams 2 crashState).s.getD 21 0 =
        499 / 5 + (9245195 / 925444) * (1 / 20) := by
      rw [run_step_s_getD defaultParams 2 crashState h21N, hstop]
      norm_num [step_vehicle, accel, v_phase1, idm_accel, get_gap, leader_idx_eq,
        crashState, defaultParams, rat_sqrt_four, max_def, fmod_eq_self,
        List.getD_cons_zero, List.getD_cons_succ]
    rw [get_gap, hl0, e21, e0]
    norm_num [defaultParams]

/-! ### Witnesses: the hypotheses of the claim theorems hold at concrete inputs -/

theorem c1_witness :
    (0.5 ≤ get_gap defaultParams 1 (init_state defaultParams).s →
      (run_step defaultParams 0 (init_state defaultParams)).v.getD 1 0 * defaultParams.DT ≤
        get_gap defaultParams 1 (init_state defaultParams).s - 0.5) ∧
    (get_gap defaultParams 1 (init_state defaultParams).s < 0.5 →
      (run_step defaultParams 0 (init_state defaultParams)).v.getD 1 0 = 0) :=
  c1_follower_safeguard defaultParams (init_state defaultParams) 0 1
    (by norm_num [defaultParams]) (by decide) (by decide)

theorem c3_witness :
    0 ≤ (init_state defaultParams).s.getD 0 0 ∧
    (init_state defaultParams).s.getD 0 0 < defaultParams.CIRC :=
  c3_position_domain defaultParams (init_state defaultParams)
    (by norm_num [defaultParams]) Reachable.init 0 (by decide)

theorem c4_witness :
    0 ≤ (run_step scriptParams 0 (init_state scriptParams)).v.getD 1 0 :=
  c4_velocity_nonneg scriptParams 0 (init_state scriptParams) 1 (by decide)

theorem c5_witness : leader_stopped defaultParams 1 = false :=
  (c5_leader_schedule defaultParams 1).1 (by norm_num [defaultParams])

theorem c6_witness :
    run_trace defaultParams (init_state defaultParams) [0, 0.05] =
      run_trace defaultParams (init_state defaultParams) [0, 0.05] :=
  c6_determinism defaultParams defaultParams (init_state defaultParams)
    (init_state defaultParams) [0, 0.05] [0, 0.05] rfl rfl rfl

theorem c8_witness :
    (run_step defaultParams 2 exC).v.getD 0 0 = 0 ∧
    (run_step defaultParams 2 exC).s.getD 0 0 = exC.s.getD 0 0 :=
  ⟨(c8_pinned_leader defaultParams exC 2
      (by norm_num [leader_stopped, fmod, defaultParams]) rfl (by decide)).1,
   (c8_pinned_leader defaultParams exC 2
      (by norm_num [leader_stopped, fmod, defaultParams]) rfl (by decide)).2.1⟩

theorem c10_witness :
    (run_step defaultParams 3 exA).v.getD 0 0 = (run_step defaultParams 3 exB).v.getD 0 0 :=
  (c10_leader_independent defaultParams 3 exA exB rfl rfl).1

end TrafficSimulation
